import Mathlib

/-!
# Verification of the lst-arb bot core against its specification

Shallow embedding of the relevant parts of `lst-arb/bot/src` in Lean 4.

Conventions of the embedding:
* `U256` / `u64` values are modelled as `ℕ` (all the operations used by the
  embedded code — `*`, `/`, `-` on values where no underflow occurs — agree
  with 256-bit arithmetic at the magnitudes the program handles; `U256`
  division is floor division, as is `ℕ` division).
* `f64` arithmetic is modelled exactly: over `ℚ` where the source computation
  is rational (scheduler price change, stable-swap evaluator), and over `ℝ`
  where `sqrt` occurs (the convex solver).  Rounding of `f64` is not modelled.
* `Instant` timestamps are explicit `ℕ` parameters (`now`), `elapsed` is
  truncated subtraction.
* Network effects (RPC calls) become explicit parameters: the Balancer vault
  balance, the receipt / submission outcomes of each attempt, etc.
-/

namespace LstArb

/-! ## Data model: venues and quotes (`price/cache.rs`) -/

/-- Type `Venue` from `price/cache.rs`. -/
inductive Venue
  | curve
  | balancer
  | uniswapV3
  | maverick
  deriving DecidableEq, Repr

/-- Function `Venue::to_u8` from `price/cache.rs`. -/
def Venue.toU8 : Venue → ℕ
  | .curve => 1
  | .balancer => 2
  | .uniswapV3 => 3
  | .maverick => 4

/-- Type `Quote` from `price/cache.rs` (`U256` fields as `ℕ`). -/
structure Quote where
  buy_amount : ℕ
  sell_amount : ℕ
  liquidity : ℕ
  timestamp_ms : ℕ
  deriving DecidableEq, Repr

/-- Type `TokenQuotes` from `price/multicall.rs` (the token address as `ℕ`). -/
structure TokenQuotes where
  token : ℕ
  token_name : String
  quotes : List (Venue × Quote)
  deriving DecidableEq, Repr

/-! ## Tiered scheduler (`scheduler.rs`) -/

/-- Constant `PROMOTION_THRESHOLD = 0.005` (`scheduler.rs`), as an exact rational. -/
def PROMOTION_THRESHOLD : ℚ := 5 / 1000

/-- Constant `PROMOTION_DURATION_SECS = 3600` (`scheduler.rs`). -/
def PROMOTION_DURATION_SECS : ℕ := 3600

/-- Type `ScanTier` from `scheduler.rs`. -/
inductive ScanTier
  | tier1Stream
  | tier2Patrol
  | tier3Lazy
  deriving DecidableEq, Repr

/-- Type `TieredPool` from `scheduler.rs`.  Addresses are `ℕ`, the `Instant` in
`promotion_time` is an absolute `ℕ` timestamp in seconds. -/
structure TieredPool where
  address : ℕ
  token_name : String
  token_address : ℕ
  tier : ScanTier
  volume_rank : ℕ
  last_price : Option ℕ
  promotion_time : Option ℕ
  original_tier : Option ScanTier
  deriving DecidableEq, Repr

/-- Function `TieredPool::tier_from_rank` (`scheduler.rs`): `1..=5 → Tier1`,
`6..=20 → Tier2`, otherwise `Tier3`. -/
def tierFromRank (rank : ℕ) : ScanTier :=
  if 1 ≤ rank ∧ rank ≤ 5 then .tier1Stream
  else if 6 ≤ rank ∧ rank ≤ 20 then .tier2Patrol
  else .tier3Lazy

/-- Function `TieredPool::promote_to_tier1` (`scheduler.rs`); `now` is the value of
`Instant::now()` at the call. -/
def promoteToTier1 (now : ℕ) (p : TieredPool) : TieredPool :=
  if p.tier ≠ .tier1Stream then
    { p with original_tier := some p.tier
             tier := .tier1Stream
             promotion_time := some now }
  else p

/-- Function `TieredPool::check_demotion` (`scheduler.rs`): returns the updated pool
and whether a demotion happened.  `promotion_time.elapsed()` is `now - t`. -/
def checkDemotion (now : ℕ) (p : TieredPool) : TieredPool × Bool :=
  match p.promotion_time with
  | some t =>
      if PROMOTION_DURATION_SECS < now - t then
        match p.original_tier with
        | some orig =>
            ({ p with tier := orig, promotion_time := none, original_tier := none }, true)
        | none => (p, false)
      else (p, false)
  | none => (p, false)

/-- Function `Scheduler::calculate_price_change` (`scheduler.rs`): `0` if the old
price is zero, otherwise `|(new - old) / old|`; the `f64` computation is
modelled exactly over `ℚ`. -/
def calculatePriceChange (oldPrice newPrice : ℕ) : ℚ :=
  if oldPrice = 0 then 0
  else |((newPrice : ℚ) - (oldPrice : ℚ)) / (oldPrice : ℚ)|

/-- The per-pool body of `Scheduler::check_promotions` (`scheduler.rs`) for a
pool whose token matches the quote set: take the best positive `buy_amount`
as the current price; if a previous price exists and the relative change is
strictly above `PROMOTION_THRESHOLD`, promote; update `last_price`
regardless.  When no venue has a positive `buy_amount` the pool is left
untouched. -/
def observePrice (now : ℕ) (quotes : List (Venue × Quote)) (p : TieredPool) : TieredPool :=
  let current? := ((quotes.filter fun vq => 0 < vq.2.buy_amount).map fun vq => vq.2.buy_amount).max?
  match current? with
  | none => p
  | some current =>
      let p' :=
        match p.last_price with
        | some last =>
            if PROMOTION_THRESHOLD < calculatePriceChange last current then
              promoteToTier1 now p
            else p
        | none => p
      { p' with last_price := some current }

/-! ## Execution results and the submission pipeline (`executor/mod.rs`) -/

/-- Constant `MAX_RESUBMIT_ATTEMPTS = 3` (`executor/mod.rs`). -/
def MAX_RESUBMIT_ATTEMPTS : ℕ := 3

/-- Constant `GAS_BUFFER_PERCENT = 120` (`executor/mod.rs`). -/
def GAS_BUFFER_PERCENT : ℕ := 120

/-- Type `ExecutionResult` from `executor/mod.rs` (hashes as `ℕ`).  Note that the
variant list of the in-tree executor has no `Aborted` case. -/
inductive ExecutionResult
  | submitted (hash : ℕ)
  | confirmed (hash : ℕ) (profit : ℕ)
  | reverted (hash : ℕ) (reason : String)
  | failed (reason : String)
  deriving DecidableEq, Repr

/-- Outcome of one `get_transaction_receipt` poll inside the resubmit loop. -/
inductive ReceiptFetch
  | found (statusOk : Bool)
  | stillPending
  | fetchErr
  deriving DecidableEq, Repr

/-- Outcome of one `send_raw_transaction` attempt: accepted with a hash (then
a receipt poll follows), or rejected with an error message. -/
inductive AttemptStep
  | accepted (hash : ℕ) (receipt : ReceiptFetch)
  | rejected (msg : String)
  deriving DecidableEq, Repr

/-- Result of `submit_with_resubmission` together with its side effects:
whether the nonce counter was decremented back, and the hashes pushed onto
the pending-transaction list (`track_pending`). -/
structure SubmitOutcome where
  result : ExecutionResult
  nonceDecremented : Bool
  tracked : List ℕ
  deriving DecidableEq, Repr

/-- Rust `str::contains` (substring containment) on the underlying
character lists. -/
def containsSub (needle hay : String) : Bool :=
  hay.toList.tails.any fun t => needle.toList.isPrefixOf t

/-- The code after the resubmit loop in `submit_with_resubmission`
(`executor/mod.rs:274-284`): with a hash, track it and return `Submitted`;
with none, decrement the nonce and return `Failed`. -/
def submitPostLoop (lastHash : Option ℕ) : SubmitOutcome :=
  match lastHash with
  | some h => ⟨.submitted h, false, [h]⟩
  | none =>
      ⟨.failed ("Failed to submit after " ++ toString MAX_RESUBMIT_ATTEMPTS ++ " attempts"),
        true, []⟩

/-- One iteration of the resubmit loop of `submit_with_resubmission`
(`executor/mod.rs:186-264`), for submission attempt `idx` (0-based):
`Sum.inl` is a `return` out of the function, `Sum.inr lh` falls through to
the next attempt with the updated `last_hash`.  The three error substring
checks are sequential in the source; the first two `return` in every branch
they take, except "replacement transaction underpriced" without a known
hash, which falls through to the "insufficient funds" check. -/
def submitIter (steps : ℕ → AttemptStep) (profit : ℕ) (idx : ℕ) (lastHash : Option ℕ) :
    SubmitOutcome ⊕ Option ℕ :=
  match steps idx with
  | .accepted h r =>
      match r with
      | .found true => .inl ⟨.confirmed h profit, false, []⟩
      | .found false => .inl ⟨.reverted h "Transaction reverted on-chain", false, []⟩
      | .stillPending => .inr (some h)
      | .fetchErr => .inr (some h)
  | .rejected m =>
      if containsSub "nonce too low" m then
        match lastHash with
        | some h => .inl ⟨.submitted h, false, []⟩
        | none => .inl ⟨.failed "Nonce too low - transaction may have been included", false, []⟩
      else if containsSub "replacement transaction underpriced" m then
        match lastHash with
        | some h => .inl ⟨.submitted h, false, [h]⟩
        | none =>
            if containsSub "insufficient funds" m then
              .inl ⟨.failed "Insufficient funds for transaction", false, []⟩
            else .inr lastHash
      else if containsSub "insufficient funds" m then
        .inl ⟨.failed "Insufficient funds for transaction", false, []⟩
      else .inr lastHash

/-- The resubmit loop of `Executor::submit_with_resubmission`
(`executor/mod.rs:186-272`): run `submitIter` while attempts remain (`left`
counts down from `MAX_RESUBMIT_ATTEMPTS`; the Rust loop breaks once
`attempt >= MAX_RESUBMIT_ATTEMPTS`), then fall into `submitPostLoop`. -/
def submitLoop (steps : ℕ → AttemptStep) (profit : ℕ) :
    (left : ℕ) → (idx : ℕ) → (lastHash : Option ℕ) → SubmitOutcome
  | 0, _, lastHash => submitPostLoop lastHash
  | left + 1, idx, lastHash =>
      match submitIter steps profit idx lastHash with
      | .inl r => r
      | .inr lh => submitLoop steps profit left (idx + 1) lh

/-- Function `Executor::submit_with_resubmission` (`executor/mod.rs`). -/
def submitWithResubmission (steps : ℕ → AttemptStep) (profit : ℕ) : SubmitOutcome :=
  submitLoop steps profit MAX_RESUBMIT_ATTEMPTS 0 none

/-! ## Convex solver (`detector/solver.rs`) -/

/-- Constant `MAX_LIQUIDITY_PERCENT = 90` (`detector/solver.rs`). -/
def MAX_LIQUIDITY_PERCENT : ℕ := 90

/-- Constant `MIN_TRADE_SIZE_WEI = 10_000_000_000_000_000` (`detector/solver.rs`). -/
def MIN_TRADE_SIZE_WEI : ℕ := 10000000000000000

/-- Constant `MAX_ITERATIONS = 50` (`detector/solver.rs`). -/
def MAX_ITERATIONS : ℕ := 50

/-- Type `PoolParams` from `detector/solver.rs` (`U256` reserves as `ℕ`). -/
structure PoolParams where
  venue : Venue
  reserve_x : ℕ
  reserve_y : ℕ
  fee_bps : ℕ
  amp : Option ℕ
  deriving DecidableEq, Repr

/-- Type `OptimalTrade` from `detector/solver.rs` (`U256` fields as `ℕ`). -/
structure OptimalTrade where
  optimal_input : ℕ
  expected_profit : ℕ
  buy_venue : Venue
  sell_venue : Venue
  iterations : ℕ
  deriving DecidableEq, Repr

/-- Function `Solver::clamp_to_liquidity` (`detector/solver.rs`):
`max_trade = vault_balance * 90 / 100` in `U256` (floor) arithmetic. -/
def clampToLiquidity (optimal vaultBalance : ℕ) : ℕ :=
  let maxTrade := vaultBalance * MAX_LIQUIDITY_PERCENT / 100
  if maxTrade < optimal then maxTrade else optimal

section StableSwap

variable {K : Type*} [LinearOrderedField K]
variable [DecidableEq K] [DecidableRel ((· < ·) : K → K → Prop)]

/-- The `D` Newton iteration inside `stableswap_get_dy`
(`detector/solver.rs:457-467`): iterate
`d ← (ann*s + 2*d_p) * d / ((ann-1)*d + 3*d_p)` with `d_p = d³/(4xy)`,
stopping when `|d_new - d| < 1` (both branches of the Rust loop leave
`d = d_new`). -/
def dIter (x y ann s : K) : ℕ → K → K
  | 0, d => d
  | fuel + 1, d =>
      let d_p := d * d * d / (4 * x * y)
      let d_new := (ann * s + d_p * 2) * d / ((ann - 1) * d + (2 + 1) * d_p)
      if |d_new - d| < 1 then d_new else dIter x y ann s fuel d_new

/-- The `y` Newton iteration inside `stableswap_get_dy`
(`detector/solver.rs:475-482`): iterate `y ← (y² + c)/(2y + b - d)`,
stopping when `|y_new - y_prev| < 1`. -/
def yIter (c b d : K) : ℕ → K → K
  | 0, yv => yv
  | fuel + 1, yv =>
      let y2 := (yv * yv + c) / (2 * yv + b - d)
      if |y2 - yv| < 1 then y2 else yIter c b d fuel y2

/-- The invariant `D` computed by `stableswap_get_dy`: 256 Newton steps from
`d₀ = s = x + y`. -/
def stableswapD (x y ann s : K) : K := dIter x y ann s 256 s

/-- The post-swap balance `y_new` computed by `stableswap_get_dy`
(`detector/solver.rs:469-482`): `x_new = x + dx`, `c = D³/(4·ann·x_new)`,
`b = x_new + D/ann`, then 256 Newton steps from `y₀ = D`. -/
def stableswapYNew (x y dx amp : K) : K :=
  let ann := amp * 2 * 2
  let s := x + y
  let d := stableswapD x y ann s
  let x_new := x + dx
  let c := d * d * d / (4 * ann * x_new)
  let b := x_new + d / ann
  yIter c b d 256 d

/-- Function `stableswap_get_dy` (`detector/solver.rs:445-489`): `Some 0` when
`x + y = 0`, otherwise `Some (y - y_new)` if `y > y_new` and `Some 0`
otherwise. -/
def stableswapGetDy (x y dx amp : K) : Option K :=
  if x + y = 0 then some 0
  else
    let y_new := stableswapYNew x y dx amp
    if y_new < y then some (y - y_new) else some 0

end StableSwap

/-! ## The solver over `ℝ`

The `f64` optimisation code of `detector/solver.rs` is embedded over `ℝ`
(`sqrt` forces this); the `U256` interface values stay `ℕ`. -/

/-- Function `f64_to_u256` (`detector/solver.rs:512-525`): `None` for negative
values, otherwise truncation towards zero. -/
noncomputable def realToU256 (r : ℝ) : Option ℕ :=
  if r < 0 then none else some ⌊r⌋₊

/-- Fee multiplier `1 - fee_bps/10000` computed by each solver routine. -/
noncomputable def feeMult (feeBps : ℕ) : ℝ := 1 - (feeBps : ℝ) / 10000

/-- Term under the square root in `optimal_constant_product`
(`detector/solver.rs:133`): `buy_fee · sell_fee · buy_y · sell_y · buy_x ·
sell_x` with `buy_x, buy_y` the buy-pool reserves and `sell_x = sell.reserve_y`,
`sell_y = sell.reserve_x`. -/
noncomputable def cpSqrtTerm (bp sp : PoolParams) : ℝ :=
  Real.sqrt (feeMult bp.fee_bps * feeMult sp.fee_bps * (bp.reserve_y : ℝ) *
    (sp.reserve_x : ℝ) * (bp.reserve_x : ℝ) * (sp.reserve_y : ℝ))

/-- Numerator of the closed form (`detector/solver.rs:134`). -/
noncomputable def cpNumerator (bp sp : PoolParams) : ℝ :=
  cpSqrtTerm bp sp - (bp.reserve_x : ℝ) * (sp.reserve_y : ℝ)

/-- Denominator of the closed form (`detector/solver.rs:135`). -/
noncomputable def cpDenominator (bp sp : PoolParams) : ℝ :=
  feeMult bp.fee_bps * (bp.reserve_y : ℝ) + (sp.reserve_y : ℝ) / feeMult sp.fee_bps

/-- The optimal input `optimal_x = numerator / denominator`
(`detector/solver.rs:142`). -/
noncomputable def cpOptimalX (bp sp : PoolParams) : ℝ :=
  cpNumerator bp sp / cpDenominator bp sp

/-- Amount of LST bought for input `x` (`detector/solver.rs:150`). -/
noncomputable def cpLstBought (bp : PoolParams) (x : ℝ) : ℝ :=
  feeMult bp.fee_bps * (bp.reserve_y : ℝ) * x / ((bp.reserve_x : ℝ) + feeMult bp.fee_bps * x)

/-- Amount of ETH received for selling `l` LST (`detector/solver.rs:151`). -/
noncomputable def cpEthReceived (sp : PoolParams) (l : ℝ) : ℝ :=
  feeMult sp.fee_bps * (sp.reserve_x : ℝ) * l / ((sp.reserve_y : ℝ) + l)

/-- Round-trip profit at input `x` (`detector/solver.rs:150-152`). -/
noncomputable def cpProfit (bp sp : PoolParams) (x : ℝ) : ℝ :=
  cpEthReceived sp (cpLstBought bp x) - x

/-- Function `Solver::optimal_constant_product` (`detector/solver.rs:110-165`). -/
noncomputable def optimalConstantProduct (bp sp : PoolParams) : Option OptimalTrade :=
  if cpNumerator bp sp ≤ 0 ∨ cpDenominator bp sp ≤ 0 then none
  else if cpOptimalX bp sp < (MIN_TRADE_SIZE_WEI : ℝ) then none
  else if cpProfit bp sp (cpOptimalX bp sp) ≤ 0 then none
  else
    match realToU256 (cpOptimalX bp sp), realToU256 (cpProfit bp sp (cpOptimalX bp sp)) with
    | some xi, some pi => some ⟨xi, pi, bp.venue, sp.venue, 1⟩
    | _, _ => none

/-- Round-trip profit through two stable-swap pools
(`detector/solver.rs:194-201`): `get_dy` on the buy pool, then on the sell
pool (with reserves swapped), minus the input. -/
noncomputable def ssProfit (bp sp : PoolParams) (x : ℝ) : Option ℝ :=
  match stableswapGetDy (bp.reserve_x : ℝ) (bp.reserve_y : ℝ)
      (x * feeMult bp.fee_bps) ((bp.amp.getD 100 : ℕ) : ℝ) with
  | none => none
  | some lst =>
      match stableswapGetDy (sp.reserve_y : ℝ) (sp.reserve_x : ℝ)
          (lst * feeMult sp.fee_bps) ((sp.amp.getD 100 : ℕ) : ℝ) with
      | none => none
      | some eth => some (eth - x)

/-- Outcome of one iteration of the Newton loop in `optimal_stableswap`:
an early function return, a `break` out of the loop, or the next iterate. -/
inductive SSOut
  | ret (r : Option OptimalTrade)
  | brk
  | cont (x : ℝ)

/-- One iteration of the Newton–Raphson loop of `optimal_stableswap`
(`detector/solver.rs:193-254`), at iteration index `i` and current point
`x`. -/
noncomputable def ssStep (bp sp : PoolParams) (i : ℕ) (x : ℝ) : SSOut :=
  match ssProfit bp sp x with
  | none => .ret none
  | some profit =>
      let dx := x * (1 / 10000)
      match ssProfit bp sp (x + dx) with
      | none => .ret none
      | some profit_plus =>
          let derivative := (profit_plus - profit) / dx
          if |derivative| < 1 / 10 ^ 12 then .brk
          else
            match ssProfit bp sp (x - dx) with
            | none => .ret none
            | some profit_minus =>
                let second_derivative :=
                  (profit_plus - 2 * profit + profit_minus) / (dx * dx)
                let x_new :=
                  if 1 / 10 ^ 12 < |second_derivative| then x - derivative / second_derivative
                  else x + derivative * (1 / 10) * x
                let x_new := max x_new (MIN_TRADE_SIZE_WEI : ℝ)
                if |(x_new - x) / x| < 1 / 1000 then
                  match ssProfit bp sp x_new with
                  | none => .ret none
                  | some final_profit =>
                      if 0 < final_profit then
                        match realToU256 x_new, realToU256 final_profit with
                        | some xi, some pi => .ret (some ⟨xi, pi, bp.venue, sp.venue, i + 1⟩)
                        | _, _ => .ret none
                      else .ret none
                else .cont x_new

/-- The Newton–Raphson loop of `optimal_stableswap`, run for at most `fuel`
iterations; `Sum.inl` is an early function return, `Sum.inr x` reaches the
code after the loop with final iterate `x`. -/
noncomputable def ssLoop (bp sp : PoolParams) : ℕ → ℕ → ℝ → Option OptimalTrade ⊕ ℝ
  | 0, _, x => .inr x
  | fuel + 1, i, x =>
      match ssStep bp sp i x with
      | .ret r => .inl r
      | .brk => .inr x
      | .cont x' => ssLoop bp sp fuel (i + 1) x'

/-- Function `Solver::optimal_stableswap` (`detector/solver.rs:172-272`). -/
noncomputable def optimalStableswap (bp sp : PoolParams) : Option OptimalTrade :=
  let x0 := max (Real.sqrt ((bp.reserve_x : ℝ) * (sp.reserve_x : ℝ) / 1000))
    (MIN_TRADE_SIZE_WEI : ℝ)
  match ssLoop bp sp MAX_ITERATIONS 0 x0 with
  | .inl r => r
  | .inr x =>
      match ssProfit bp sp x with
      | none => none
      | some final_profit =>
          if 0 < final_profit ∧ (MIN_TRADE_SIZE_WEI : ℝ) ≤ x then
            match realToU256 x, realToU256 final_profit with
            | some xi, some pi => some ⟨xi, pi, bp.venue, sp.venue, MAX_ITERATIONS⟩
            | _, _ => none
          else none

/-- The closure `calc_output` of `optimal_mixed` (`detector/solver.rs:335-347`):
reserves, fee and amplification of the buy pool when `isBuy`, of the sell
pool (reserves swapped) otherwise; dispatch on the venue of that pool. -/
noncomputable def calcOutput (bp sp : PoolParams) (isBuy : Bool) (input : ℝ) : Option ℝ :=
  let x : ℝ := if isBuy then (bp.reserve_x : ℝ) else (sp.reserve_y : ℝ)
  let y : ℝ := if isBuy then (bp.reserve_y : ℝ) else (sp.reserve_x : ℝ)
  let amp : ℝ := if isBuy then ((bp.amp.getD 100 : ℕ) : ℝ) else ((sp.amp.getD 100 : ℕ) : ℝ)
  let fee : ℝ := if isBuy then feeMult bp.fee_bps else feeMult sp.fee_bps
  let pool := if isBuy then bp else sp
  match pool.venue with
  | .curve => stableswapGetDy x y (input * fee) amp
  | _ => some (fee * y * input / (x + fee * input))

/-- Round-trip profit used by the golden-section search
(`detector/solver.rs:358-368`). -/
noncomputable def mixedProfit (bp sp : PoolParams) (input : ℝ) : Option ℝ :=
  match calcOutput bp sp true input with
  | none => none
  | some lst =>
      match calcOutput bp sp false lst with
      | none => none
      | some eth => some (eth - input)

/-- The golden-section loop of `optimal_mixed` (`detector/solver.rs:354-379`);
returns the final bracket `(a, b)`. -/
noncomputable def gsLoop (bp sp : PoolParams) : ℕ → ℝ → ℝ → Option (ℝ × ℝ)
  | 0, a, b => some (a, b)
  | fuel + 1, a, b =>
      let phi := (1 + Real.sqrt 5) / 2
      let c := b - (b - a) / phi
      let d := a + (b - a) / phi
      match mixedProfit bp sp c with
      | none => none
      | some profit_c =>
          match mixedProfit bp sp d with
          | none => none
          | some profit_d =>
              let ab : ℝ × ℝ := if profit_d < profit_c then (a, d) else (c, b)
              if |ab.2 - ab.1| < (MIN_TRADE_SIZE_WEI : ℝ) then some ab
              else gsLoop bp sp fuel ab.1 ab.2

/-- Function `Solver::optimal_mixed` (`detector/solver.rs:319-397`). -/
noncomputable def optimalMixed (bp sp : PoolParams) : Option OptimalTrade :=
  match gsLoop bp sp MAX_ITERATIONS (MIN_TRADE_SIZE_WEI : ℝ)
      (min (bp.reserve_x : ℝ) (sp.reserve_x : ℝ) * (1 / 2)) with
  | none => none
  | some (a, b) =>
      let optimal_x := (a + b) / 2
      match mixedProfit bp sp optimal_x with
      | none => none
      | some profit =>
          if 0 < profit ∧ (MIN_TRADE_SIZE_WEI : ℝ) ≤ optimal_x then
            match realToU256 optimal_x, realToU256 profit with
            | some xi, some pi => some ⟨xi, pi, bp.venue, sp.venue, MAX_ITERATIONS⟩
            | _, _ => none
          else none

/-- Venue dispatch of `find_optimal_trade` (`detector/solver.rs:288-301`). -/
noncomputable def solvePair (bp sp : PoolParams) : Option OptimalTrade :=
  match bp.venue, sp.venue with
  | .curve, .curve => optimalStableswap bp sp
  | .uniswapV3, .uniswapV3 => optimalConstantProduct bp sp
  | .uniswapV3, .balancer => optimalConstantProduct bp sp
  | .balancer, .uniswapV3 => optimalConstantProduct bp sp
  | .balancer, .balancer => optimalConstantProduct bp sp
  | _, _ => optimalMixed bp sp

/-- The body of the double loop of `find_optimal_trade`
(`detector/solver.rs:282-313`): skip equal-venue pairs, keep the trade with
the larger expected profit. -/
noncomputable def considerPair (best : Option OptimalTrade) (bp sp : PoolParams) :
    Option OptimalTrade :=
  if bp.venue = sp.venue then best
  else
    match solvePair bp sp with
    | none => best
    | some t =>
        match best with
        | none => some t
        | some b => if b.expected_profit < t.expected_profit then some t else some b

/-- Function `Solver::find_optimal_trade` (`detector/solver.rs:275-316`). -/
noncomputable def findOptimalTrade (pools : List PoolParams) : Option OptimalTrade :=
  (pools.product pools).foldl (fun acc pr => considerPair acc pr.1 pr.2) none

/-- The clamping stage of `find_optimal_trade_clamped`
(`detector/solver.rs:415-433`): clamp the input to 90% of the vault balance
and, if clamping reduced it, scale the profit by `clamped / optimal` in
`U256` (floor) arithmetic. -/
def clampStage (t : OptimalTrade) (vaultBalance : ℕ) : OptimalTrade :=
  let clamped := clampToLiquidity t.optimal_input vaultBalance
  if clamped < t.optimal_input then
    { t with optimal_input := clamped
             expected_profit := t.expected_profit * clamped / t.optimal_input }
  else t

/-- Function `Solver::find_optimal_trade_clamped` (`detector/solver.rs:400-434`);
the vault WETH balance fetched over RPC is the parameter `vaultBalance`. -/
noncomputable def findOptimalTradeClamped (vaultBalance : ℕ) (pools : List PoolParams) :
    Option OptimalTrade :=
  (findOptimalTrade pools).map fun t => clampStage t vaultBalance

/-! ## Opportunity detector (`detector/spread.rs`) -/

/-- Type `Opportunity` from `detector/spread.rs` (addresses and `U256` as `ℕ`). -/
structure Opportunity where
  token : ℕ
  token_name : String
  buy_venue : Venue
  sell_venue : Venue
  buy_price : ℕ
  sell_price : ℕ
  spread_bps : ℕ
  expected_profit : ℕ
  trade_amount : ℕ
  timestamp_ms : ℕ
  deriving DecidableEq, Repr

/-- Function `venue_fee_bps` (`detector/spread.rs:286-293`). -/
def venueFeeBps : Venue → ℕ
  | .curve => 4
  | .balancer => 10
  | .uniswapV3 => 5
  | .maverick => 10

/-- Function `venue_amplification` (`detector/spread.rs:296-302`). -/
def venueAmplification : Venue → Option ℕ
  | .curve => some 100
  | .balancer => some 200
  | _ => none

/-- Pool construction in `find_optimal_opportunity`
(`detector/spread.rs:211-230`): keep quotes with a positive amount,
estimate both reserves as `100 ×` the best available amount. -/
def buildPools (tq : TokenQuotes) : List PoolParams :=
  (tq.quotes.filter fun vq =>
      decide (0 < vq.2.buy_amount) || decide (0 < vq.2.sell_amount)).map fun vq =>
    let estimated_reserve :=
      if 0 < vq.2.buy_amount then vq.2.buy_amount * 100 else vq.2.sell_amount * 100
    { venue := vq.1
      reserve_x := estimated_reserve
      reserve_y := estimated_reserve
      fee_bps := venueFeeBps vq.1
      amp := venueAmplification vq.1 }

/-- Function `OpportunityDetector::find_optimal_opportunity`
(`detector/spread.rs:200-282`); `now` is the system timestamp, `vaultBalance`
the RPC-fetched vault balance.  The `checked_mul`/`checked_div` of the spread
cannot fail here (`ℕ` does not overflow and the divisor is checked), and the
`as_u64` truncation is not modelled. -/
noncomputable def findOptimalOpportunity (vaultBalance now : ℕ) (tq : TokenQuotes) :
    Option Opportunity :=
  if tq.quotes.length < 2 then none
  else
    let pools := buildPools tq
    if pools.length < 2 then none
    else
      match findOptimalTradeClamped vaultBalance pools with
      | none => none
      | some t =>
          let spread_bps :=
            if 0 < t.optimal_input then t.expected_profit * 10000 / t.optimal_input else 0
          match tq.quotes.find? (fun vq => vq.1 == t.buy_venue),
              tq.quotes.find? (fun vq => vq.1 == t.sell_venue) with
          | some bq, some sq =>
              some { token := tq.token
                     token_name := tq.token_name
                     buy_venue := t.buy_venue
                     sell_venue := t.sell_venue
                     buy_price := bq.2.buy_amount
                     sell_price := sq.2.sell_amount
                     spread_bps := spread_bps
                     expected_profit := t.expected_profit
                     trade_amount := t.optimal_input
                     timestamp_ms := now }
          | _, _ => none

/-- Function `OpportunityDetector::detect_optimal` (`detector/spread.rs:178-197`):
keep opportunities passing both floors, sort by expected profit descending
(`sort_by` with comparator `b.expected_profit.cmp(&a.expected_profit)`,
a stable sort, modelled by `mergeSort`). -/
noncomputable def detectOptimal (min_spread_bps min_profit vaultBalance now : ℕ)
    (tqs : List TokenQuotes) : List Opportunity :=
  let opportunities := tqs.filterMap fun tq =>
    (findOptimalOpportunity vaultBalance now tq).filter fun o =>
      decide (min_spread_bps ≤ o.spread_bps) && decide (min_profit ≤ o.expected_profit)
  opportunities.mergeSort fun a b => decide (b.expected_profit ≤ a.expected_profit)

/-! ## Transaction building on the execute path (`executor/mod.rs`,
`simulator/mod.rs`) -/

/-- Argument tuple of the `executeArb(address,uint256,uint8,uint8,uint256)`
call; `Simulator::build_transaction` ABI-encodes exactly these five values
into the calldata (`simulator/mod.rs:164-191`), an injective encoding that is
abstracted to the tuple here. -/
structure ExecuteArbArgs where
  lst : ℕ
  amount : ℕ
  buyVenue : ℕ
  sellVenue : ℕ
  minProfit : ℕ
  deriving DecidableEq, Repr

/-- Constant `ARBITRUM_CHAIN_ID = 42161` (`simulator/mod.rs`). -/
def ARBITRUM_CHAIN_ID : ℕ := 42161

/-- The EIP-1559 transaction request built by `Simulator::build_transaction`
(`simulator/mod.rs:194-205`). -/
structure Eip1559Tx where
  toAddr : ℕ
  args : ExecuteArbArgs
  gas : ℕ
  max_fee_per_gas : ℕ
  max_priority_fee_per_gas : ℕ
  nonce : ℕ
  chain_id : ℕ
  deriving DecidableEq, Repr

/-- Function `Simulator::build_transaction` (`simulator/mod.rs:153-206`). -/
def buildTransaction (arbContract : ℕ) (opp : Opportunity)
    (minProfit gasLimit maxFeePerGas maxPriorityFee nonce : ℕ) : Eip1559Tx :=
  { toAddr := arbContract
    args := { lst := opp.token
              amount := opp.trade_amount
              buyVenue := opp.buy_venue.toU8
              sellVenue := opp.sell_venue.toU8
              minProfit := minProfit }
    gas := gasLimit
    max_fee_per_gas := maxFeePerGas
    max_priority_fee_per_gas := maxPriorityFee
    nonce := nonce
    chain_id := ARBITRUM_CHAIN_ID }

/-- Step 4-5 of `Executor::execute` (`executor/mod.rs:142-160`) after a
successful simulation with gas estimate `gasEstimate` and net profit
`netProfit`: `min_profit = net · 80 / 100`, `gas_limit = estimate · 120 / 100`
(`U256` floor division), priority fee zero. -/
def executeBuildTx (arbContract : ℕ) (opp : Opportunity)
    (gasEstimate netProfit gasPrice nonce : ℕ) : Eip1559Tx :=
  let min_profit := netProfit * 80 / 100
  let gas_limit := gasEstimate * GAS_BUFFER_PERCENT / 100
  let priority_fee := 0
  buildTransaction arbContract opp min_profit gas_limit gasPrice priority_fee nonce

/-! ## Pre-flight executor variant (spec §4.4-§4.5)

The repository carries two Executor variants (spec, Design notes); the one
with pre-flight verification is not under `src/`, so it is modelled from the
spec here. -/

/-- Modelled from the spec: the `Aborted`-capable `ExecutionResult` of the
pre-flight Executor variant, which is not under `src/` (spec §3
`ExecutionResult`, §4.4). -/
inductive ExecutionResultP
  | submitted (hash : ℕ)
  | confirmed (hash : ℕ) (profit : ℕ)
  | reverted (hash : ℕ) (reason : String)
  | aborted (expected : ℕ) (actual : ℕ)
  | failed (reason : String)
  deriving DecidableEq, Repr

/-- Outcome of the dry-run simulation the Pre-flight Verifier performs. -/
inductive PreflightSim
  | revert
  | ok (actualProfit : ℕ)
  | err
  deriving DecidableEq, Repr

/-- Modelled from the spec: the Pre-flight Verifier (§4.4), which is not under
`src/`.  Returns the `Aborted` payload, or `none` when the pre-flight passes:
revert → `Aborted (expected, 0)`; success with
`actual < 0.90 × expected` → `Aborted (expected, actual)`; any error →
conservative Abort. -/
def preflightVerify (expected : ℕ) (sim : PreflightSim) : Option (ℕ × ℕ) :=
  match sim with
  | .revert => some (expected, 0)
  | .ok actual => if 100 * actual < 90 * expected then some (expected, actual) else none
  | .err => some (expected, 0)

/-- Environment of one `execute` call of the pre-flight Executor variant:
the chain responses it consumes. -/
structure ExecEnv where
  gasPrice : ℕ
  maxGasPrice : ℕ
  simSuccess : Bool
  gasEstimate : ℕ
  netProfit : ℕ
  preflight : PreflightSim
  submitResult : ExecutionResultP
  deriving DecidableEq, Repr

/-- State left behind by one `execute` call: the final result, the nonce
counter afterwards, and the signed transaction submitted (if any). -/
structure ExecOutcome where
  result : ExecutionResultP
  nonceAfter : ℕ
  submitted : Option ℕ
  deriving DecidableEq, Repr

/-- Modelled from the spec: `execute(opportunity)` of the pre-flight Executor
variant (§4.5 steps 1-7 with the §4.4 verifier inserted before the nonce
issue), which is not under `src/`.  Gas ceiling → `Failed`; failed or
unprofitable simulation → `Failed`; pre-flight abort → `Aborted` with the
nonce untouched and nothing submitted; otherwise the nonce is consumed and
the signed transaction submitted. -/
def executePreflight (env : ExecEnv) (nonce0 : ℕ) : ExecOutcome :=
  if env.maxGasPrice < env.gasPrice then
    ⟨.failed "Gas price too high", nonce0, none⟩
  else if ¬env.simSuccess then
    ⟨.failed "Simulation failed", nonce0, none⟩
  else if env.netProfit = 0 then
    ⟨.failed "Not profitable after gas costs", nonce0, none⟩
  else
    match preflightVerify env.netProfit env.preflight with
    | some ea => ⟨.aborted ea.1 ea.2, nonce0, none⟩
    | none => ⟨env.submitResult, nonce0 + 1, some nonce0⟩

/-! ## Theorems -/

/-- Helper: the price change for a nonzero old price and a rise. -/
lemma calculatePriceChange_of_le (o n : ℕ) (ho : o ≠ 0) (hle : o ≤ n) :
    calculatePriceChange o n = ((n : ℚ) - o) / o := by
  unfold calculatePriceChange
  rw [if_neg ho, abs_of_nonneg]
  apply div_nonneg
  · rw [sub_nonneg]
    exact_mod_cast hle
  · positivity

/-- Helper: an observation that does not cross the promotion threshold only
records the new price. -/
lemma observePrice_no_promote (now : ℕ) (quotes : List (Venue × Quote))
    (p : TieredPool) (last current : ℕ)
    (hlast : p.last_price = some last)
    (hcur : ((quotes.filter fun vq => 0 < vq.2.buy_amount).map
      fun vq => vq.2.buy_amount).max? = some current)
    (hth : ¬ PROMOTION_THRESHOLD < calculatePriceChange last current) :
    observePrice now quotes p = { p with last_price := some current } := by
  simp only [observePrice, hcur, hlast, if_neg hth]

/-- C1: on the execute path of the pre-flight Executor variant, a pre-flight
re-simulation whose actual profit is below 0.90 of the expected profit makes
`execute` return `Aborted {expected, actual}`, with no transaction submitted
and the nonce counter unchanged. -/
theorem execute_preflight_low_profit_aborts (env : ExecEnv) (nonce0 actual : ℕ)
    (hgas : env.gasPrice ≤ env.maxGasPrice) (hsim : env.simSuccess = true)
    (hnet : env.netProfit ≠ 0) (hpf : env.preflight = .ok actual)
    (hlow : 100 * actual < 90 * env.netProfit) :
    executePreflight env nonce0 =
      ⟨.aborted env.netProfit actual, nonce0, none⟩ := by
  simp [executePreflight, preflightVerify, hsim, hnet, hpf, hlow, not_lt.mpr hgas]

/-- C1 witness: spec seed case 5 — expected net profit 1000, pre-flight
simulation returns 850. -/
theorem execute_preflight_low_profit_aborts_witness :
    (⟨5, 10, true, 100, 1000, .ok 850, .submitted 1⟩ : ExecEnv).gasPrice ≤ 10 ∧
    executePreflight ⟨5, 10, true, 100, 1000, .ok 850, .submitted 1⟩ 42 =
      ⟨.aborted 1000 850, 42, none⟩ :=
  ⟨by decide,
    execute_preflight_low_profit_aborts ⟨5, 10, true, 100, 1000, .ok 850, .submitted 1⟩ 42 850
      (by decide) (by decide) (by decide) (by decide) (by decide)⟩

/-- C3 counterexample: with `x* = 10` and `vault_reserve = 11` the clamped
input is `11 * 90 / 100 = 9` in `U256` floor arithmetic, while the claimed
`min(x*, 0.90 × v) = min(10, 9.9) = 9.9` is not an integer: the returned
input differs from `min(x*, 0.90 × v)`. -/
theorem clamp_stage_not_exact_real_min :
    (clampStage ⟨10, 100, .curve, .balancer, 1⟩ 11).optimal_input = 9 ∧
    ((9 : ℚ) ≠ min (10 : ℚ) ((90 / 100) * 11)) := by
  refine ⟨rfl, by norm_num⟩

/-- C3 (amended): the clamped sizer returns input
`min(x*, ⌊0.90 × vault_reserve⌋)` (floor arithmetic); when clamping strictly
reduces the input the profit is scaled to `⌊profit × clamped / x*⌋`, and
otherwise the trade is returned unchanged. -/
theorem clamp_stage_min_floor (t : OptimalTrade) (v : ℕ) :
    (clampStage t v).optimal_input = min t.optimal_input (v * 90 / 100) ∧
    (v * 90 / 100 : ℕ) = ⌊(v : ℚ) * (90 / 100)⌋₊ ∧
    (v * 90 / 100 < t.optimal_input →
      clampStage t v =
        { t with optimal_input := v * 90 / 100
                 expected_profit := t.expected_profit * (v * 90 / 100) / t.optimal_input }) ∧
    (t.optimal_input ≤ v * 90 / 100 → clampStage t v = t) := by
  refine ⟨?_, ?_, ?_, ?_⟩
  · by_cases h : v * 90 / 100 < t.optimal_input
    · simp [clampStage, clampToLiquidity, MAX_LIQUIDITY_PERCENT, h, min_eq_right h.le]
    · simp [clampStage, clampToLiquidity, MAX_LIQUIDITY_PERCENT, h,
        min_eq_left (not_lt.mp h)]
  · rw [show ((v : ℚ) * (90 / 100)) = ((v * 90 : ℕ) : ℚ) / ((100 : ℕ) : ℚ) by push_cast; ring]
    rw [Nat.floor_div_nat, Nat.floor_natCast]
  · intro h
    simp [clampStage, clampToLiquidity, MAX_LIQUIDITY_PERCENT, h]
  · intro h
    simp [clampStage, clampToLiquidity, MAX_LIQUIDITY_PERCENT, not_lt.mpr h,
      Nat.not_lt.mpr h]

/-- C3 witness: spec seed case 2 scaled to integers — `x* = 100`,
`vault_reserve = 50`; the clamp gives `45` and scales the profit by
`45/100`. -/
theorem clamp_stage_min_floor_witness :
    (50 * 90 / 100 < 100 ∧
      clampStage ⟨100, 80, .uniswapV3, .balancer, 1⟩ 50 =
        ⟨45, 36, .uniswapV3, .balancer, 1⟩) ∧
    (clampStage ⟨40, 80, .uniswapV3, .balancer, 1⟩ 50).optimal_input =
      min 40 (50 * 90 / 100) :=
  ⟨⟨by decide, by
      have h := (clamp_stage_min_floor ⟨100, 80, .uniswapV3, .balancer, 1⟩ 50).2.2.1
        (by decide)
      simpa using h⟩,
    (clamp_stage_min_floor ⟨40, 80, .uniswapV3, .balancer, 1⟩ 50).1⟩

/-- C4 counterexample: a pool in the Lazy tier with previous price 1000 and a
new best buy quote of 1005 sees a relative change of exactly 0.5%
(`= PROMOTION_THRESHOLD`, so "at least 0.5%" holds), yet the Lazy scan does
not promote it: the source promotes only on a change strictly above the
threshold. -/
theorem promotion_at_exact_half_percent_not_promoted :
    calculatePriceChange 1000 1005 = PROMOTION_THRESHOLD ∧
    (observePrice 7 [(Venue.uniswapV3, ⟨1005, 0, 0, 0⟩)]
        ⟨1, "LST", 2, .tier3Lazy, 25, some 1000, none, none⟩).tier = .tier3Lazy := by
  have hpc : calculatePriceChange 1000 1005 = PROMOTION_THRESHOLD := by
    rw [calculatePriceChange_of_le 1000 1005 (by norm_num) (by norm_num)]
    norm_num [PROMOTION_THRESHOLD]
  refine ⟨hpc, ?_⟩
  rw [observePrice_no_promote 7 [(Venue.uniswapV3, ⟨1005, 0, 0, 0⟩)]
    ⟨1, "LST", 2, .tier3Lazy, 25, some 1000, none, none⟩ 1000 1005 rfl rfl
    (by rw [hpc]; exact lt_irrefl _)]

/-- C4 (amended): on a Lazy scan, a price observation whose relative change
is strictly greater than 0.5% of the previous price promotes a pool not
already in Stream: the current tier is stored in `tier_before_promotion`,
the tier becomes Stream, `promotion_start` is stamped with the present time;
and the last observed price is updated for every pool regardless of
promotion. -/
theorem lazy_scan_strict_promotion (now : ℕ) (quotes : List (Venue × Quote))
    (p : TieredPool) (last current : ℕ)
    (hlast : p.last_price = some last)
    (hcur : ((quotes.filter fun vq => 0 < vq.2.buy_amount).map
      fun vq => vq.2.buy_amount).max? = some current)
    (hth : PROMOTION_THRESHOLD < calculatePriceChange last current)
    (htier : p.tier ≠ .tier1Stream) :
    observePrice now quotes p =
      { p with tier := .tier1Stream
               original_tier := some p.tier
               promotion_time := some now
               last_price := some current } ∧
    ∀ q : TieredPool, (observePrice now quotes q).last_price = some current := by
  constructor
  · simp only [observePrice, hcur, hlast, if_pos hth, promoteToTier1, if_pos htier]
  · intro q
    simp only [observePrice, hcur]

/-- C4 witness: spec seed case 3 — previous price 1 000 000, new quote
1 006 000 (0.6% up), pool initially Lazy. -/
theorem lazy_scan_strict_promotion_witness :
    PROMOTION_THRESHOLD < calculatePriceChange 1000000 1006000 ∧
    observePrice 9 [(Venue.uniswapV3, ⟨1006000, 0, 0, 0⟩)]
        ⟨1, "LST", 2, .tier3Lazy, 25, some 1000000, none, none⟩ =
      ⟨1, "LST", 2, .tier1Stream, 25, some 1006000, some 9, some .tier3Lazy⟩ := by
  have hth : PROMOTION_THRESHOLD < calculatePriceChange 1000000 1006000 := by
    rw [calculatePriceChange_of_le 1000000 1006000 (by norm_num) (by norm_num)]
    norm_num [PROMOTION_THRESHOLD]
  refine ⟨hth, ?_⟩
  have h := (lazy_scan_strict_promotion 9 [(Venue.uniswapV3, ⟨1006000, 0, 0, 0⟩)]
    ⟨1, "LST", 2, .tier3Lazy, 25, some 1000000, none, none⟩ 1000000 1006000
    rfl rfl hth (by decide)).1
  exact h

/-- C5: a pool whose `promotion_start` is set and older than 3600 seconds is,
on the next demotion check, restored to its recorded
`tier_before_promotion` with both promotion fields cleared; and a pool with
no `tier_before_promotion` recorded is never changed by the demotion
check. -/
theorem demotion_restores_recorded_tier (p : TieredPool) (now t : ℕ) (orig : ScanTier)
    (hpt : p.promotion_time = some t)
    (hage : PROMOTION_DURATION_SECS < now - t)
    (horig : p.original_tier = some orig) :
    checkDemotion now p =
      ({ p with tier := orig, promotion_time := none, original_tier := none }, true) ∧
    ∀ (q : TieredPool) (now' : ℕ), q.original_tier = none →
      checkDemotion now' q = (q, false) := by
  constructor
  · simp [checkDemotion, hpt, hage, horig]
  · intro q now' hq
    unfold checkDemotion
    cases hqt : q.promotion_time with
    | none => rfl
    | some t' =>
        by_cases h : PROMOTION_DURATION_SECS < now' - t'
        · simp [h, hq]
        · simp [h]

/-- C5 witness: spec seed case 3 — a pool promoted at time 0 and checked at
time 3601 is restored to Lazy; a Stream-native pool is untouched. -/
theorem demotion_restores_recorded_tier_witness :
    checkDemotion 3601 ⟨1, "LST", 2, .tier1Stream, 25, some 5, some 0, some .tier3Lazy⟩ =
      (⟨1, "LST", 2, .tier3Lazy, 25, some 5, none, none⟩, true) ∧
    checkDemotion 3601 ⟨1, "WSTETH", 2, .tier1Stream, 1, none, none, none⟩ =
      (⟨1, "WSTETH", 2, .tier1Stream, 1, none, none, none⟩, false) := by
  have h := demotion_restores_recorded_tier
    ⟨1, "LST", 2, .tier1Stream, 25, some 5, some 0, some .tier3Lazy⟩ 3601 0 .tier3Lazy
    rfl (by decide) rfl
  exact ⟨h.1, h.2 ⟨1, "WSTETH", 2, .tier1Stream, 1, none, none, none⟩ 3601 rfl⟩

/-- C7 counterexample: with gas estimate 1 the built transaction carries gas
limit `1 * 120 / 100 = 1` (`U256` floor arithmetic), while the claimed
`ceil(1 × 1.20) = 2`. -/
theorem gas_limit_not_ceiling :
    (executeBuildTx 0 ⟨0, "LST", .uniswapV3, .balancer, 0, 0, 0, 0, 0, 0⟩ 1 0 0 0).gas = 1 ∧
    ⌈(1 : ℚ) * (120 / 100)⌉ = 2 := by
  refine ⟨rfl, ?_⟩
  rw [show ((1 : ℚ) * (120 / 100)) = 6 / 5 by norm_num, Int.ceil_eq_iff]
  constructor <;> norm_num

/-- C7 (amended): after a successful simulation with gas estimate `g` and
expected net profit `p`, the built transaction has gas limit
`⌊g × 1.20⌋`, carries `minProfit = ⌊p × 0.80⌋` in the `executeArb` call, and
a max priority fee per gas of 0. -/
theorem execute_build_tx_policy (arbContract : ℕ) (opp : Opportunity)
    (g p gasPrice nonce : ℕ) :
    (executeBuildTx arbContract opp g p gasPrice nonce).gas = g * 120 / 100 ∧
    ((g * 120 / 100 : ℕ)) = ⌊(g : ℚ) * (120 / 100)⌋₊ ∧
    (executeBuildTx arbContract opp g p gasPrice nonce).args.minProfit = p * 80 / 100 ∧
    ((p * 80 / 100 : ℕ)) = ⌊(p : ℚ) * (80 / 100)⌋₊ ∧
    (executeBuildTx arbContract opp g p gasPrice nonce).max_priority_fee_per_gas = 0 := by
  refine ⟨rfl, ?_, rfl, ?_, rfl⟩
  · rw [show ((g : ℚ) * (120 / 100)) = ((g * 120 : ℕ) : ℚ) / ((100 : ℕ) : ℚ) by
      push_cast; ring]
    rw [Nat.floor_div_nat, Nat.floor_natCast]
  · rw [show ((p : ℚ) * (80 / 100)) = ((p * 80 : ℕ) : ℚ) / ((100 : ℕ) : ℚ) by
      push_cast; ring]
    rw [Nat.floor_div_nat, Nat.floor_natCast]

/-- C10: a pool with no previously recorded price, or a recorded price of
zero, is never promoted by a Lazy-scan observation: the price-change
computation returns 0 for an old price of zero (no division by zero), and
the observation at most records the new price. -/
theorem zero_or_absent_price_never_promotes (now : ℕ) (quotes : List (Venue × Quote))
    (p : TieredPool) (newPrice : ℕ)
    (h : p.last_price = none ∨ p.last_price = some 0) :
    calculatePriceChange 0 newPrice = 0 ∧
    (observePrice now quotes p).tier = p.tier ∧
    (observePrice now quotes p).promotion_time = p.promotion_time ∧
    (observePrice now quotes p).original_tier = p.original_tier := by
  refine ⟨by simp [calculatePriceChange], ?_⟩
  cases hmax : ((quotes.filter fun vq => 0 < vq.2.buy_amount).map
      fun vq => vq.2.buy_amount).max? with
  | none =>
      have hob : observePrice now quotes p = p := by simp only [observePrice, hmax]
      rw [hob]
      exact ⟨rfl, rfl, rfl⟩
  | some current =>
      rcases h with h | h
      · have hob : observePrice now quotes p = { p with last_price := some current } := by
          simp only [observePrice, hmax, h]
        rw [hob]
        exact ⟨rfl, rfl, rfl⟩
      · have hz : calculatePriceChange 0 current = 0 := by simp [calculatePriceChange]
        rw [observePrice_no_promote now quotes p 0 current h hmax
          (by rw [hz]; norm_num [PROMOTION_THRESHOLD])]
        exact ⟨rfl, rfl, rfl⟩

/-- C10 witness: a first observation of price 1005, and an observation over a
recorded zero price, both leave a Lazy pool unpromoted. -/
theorem zero_or_absent_price_never_promotes_witness :
    ((⟨1, "LST", 2, .tier3Lazy, 25, none, none, none⟩ : TieredPool).last_price = none ∨
      (⟨1, "LST", 2, .tier3Lazy, 25, none, none, none⟩ : TieredPool).last_price = some 0) ∧
    calculatePriceChange 0 1005 = 0 ∧
    (observePrice 3 [(Venue.uniswapV3, ⟨1005, 0, 0, 0⟩)]
      ⟨1, "LST", 2, .tier3Lazy, 25, none, none, none⟩).tier = .tier3Lazy :=
  ⟨Or.inl rfl, by
    have h := zero_or_absent_price_never_promotes 3 [(Venue.uniswapV3, ⟨1005, 0, 0, 0⟩)]
      ⟨1, "LST", 2, .tier3Lazy, 25, none, none, none⟩ 1005 (Or.inl rfl)
    exact ⟨h.1, h.2.1⟩⟩

/-- Helper: one-step unfolding of the resubmit loop. -/
lemma submitLoop_succ (steps : ℕ → AttemptStep) (profit left idx : ℕ)
    (lastHash : Option ℕ) :
    submitLoop steps profit (left + 1) idx lastHash =
      match submitIter steps profit idx lastHash with
      | .inl r => r
      | .inr lh => submitLoop steps profit left (idx + 1) lh := rfl

/-- C6: terminal behaviour of the resubmit loop.  A submission error
containing "nonce too low" returns `Submitted` with the last known hash and
`Failed` when there is none; an error containing "insufficient funds" (and
none of the earlier markers) returns `Failed` at once, with no retry in
either case; exhausting all three attempts with receipts still pending
tracks the last hash as pending and returns `Submitted`; and exhausting all
attempts without any accepted submission decrements the nonce back and
returns `Failed`. -/
theorem resubmit_loop_terminal_cases (steps : ℕ → AttemptStep) (profit : ℕ) :
    (∀ left idx m, steps idx = .rejected m → containsSub "nonce too low" m = true →
      (∀ h, submitLoop steps profit (left + 1) idx (some h) =
        ⟨.submitted h, false, []⟩) ∧
      submitLoop steps profit (left + 1) idx none =
        ⟨.failed "Nonce too low - transaction may have been included", false, []⟩) ∧
    (∀ left idx lastHash m, steps idx = .rejected m →
      containsSub "nonce too low" m = false →
      containsSub "replacement transaction underpriced" m = false →
      containsSub "insufficient funds" m = true →
      submitLoop steps profit (left + 1) idx lastHash =
        ⟨.failed "Insufficient funds for transaction", false, []⟩) ∧
    (∀ h0 h1 h2, steps 0 = .accepted h0 .stillPending →
      steps 1 = .accepted h1 .stillPending → steps 2 = .accepted h2 .stillPending →
      submitWithResubmission steps profit = ⟨.submitted h2, false, [h2]⟩) ∧
    (∀ m0 m1 m2, steps 0 = .rejected m0 → steps 1 = .rejected m1 → steps 2 = .rejected m2 →
      (∀ m, (m = m0 ∨ m = m1 ∨ m = m2) →
        containsSub "nonce too low" m = false ∧
        containsSub "replacement transaction underpriced" m = false ∧
        containsSub "insufficient funds" m = false) →
      submitWithResubmission steps profit =
        ⟨.failed ("Failed to submit after " ++ toString MAX_RESUBMIT_ATTEMPTS ++
          " attempts"), true, []⟩) := by
  refine ⟨?_, ?_, ?_, ?_⟩
  · intro left idx m hm hn
    constructor
    · intro h
      rw [submitLoop_succ]
      simp [submitIter, hm, hn]
    · rw [submitLoop_succ]
      simp [submitIter, hm, hn]
  · intro left idx lastHash m hm h1 h2 h3
    rw [submitLoop_succ]
    cases lastHash <;> simp [submitIter, hm, h1, h2, h3]
  · intro h0 h1 h2 s0 s1 s2
    show submitLoop steps profit 3 0 none = _
    rw [show (3 : ℕ) = 2 + 1 from rfl, submitLoop_succ]
    simp only [submitIter, s0]
    rw [show (2 : ℕ) = 1 + 1 from rfl, submitLoop_succ]
    simp only [submitIter, s1]
    rw [show (1 : ℕ) = 0 + 1 from rfl, submitLoop_succ]
    simp only [submitIter, s2]
    rfl
  · intro m0 m1 m2 s0 s1 s2 hflags
    obtain ⟨f00, f01, f02⟩ := hflags m0 (Or.inl rfl)
    obtain ⟨f10, f11, f12⟩ := hflags m1 (Or.inr (Or.inl rfl))
    obtain ⟨f20, f21, f22⟩ := hflags m2 (Or.inr (Or.inr rfl))
    show submitLoop steps profit 3 0 none = _
    rw [show (3 : ℕ) = 2 + 1 from rfl, submitLoop_succ]
    simp only [submitIter, s0, f00, f01, f02, Bool.false_eq_true, if_false]
    rw [show (2 : ℕ) = 1 + 1 from rfl, submitLoop_succ]
    simp only [submitIter, s1, f10, f11, f12, Bool.false_eq_true, if_false]
    rw [show (1 : ℕ) = 0 + 1 from rfl, submitLoop_succ]
    simp only [submitIter, s2, f20, f21, f22, Bool.false_eq_true, if_false]
    rfl

/-- C6 witness: concrete resubmission scripts exercising all four terminal
cases of the loop. -/
theorem resubmit_loop_terminal_cases_witness :
    ((fun i => if i = 0 then AttemptStep.accepted 11 .stillPending
        else .rejected "nonce too low") 1 = .rejected "nonce too low" ∧
      submitLoop (fun i => if i = 0 then AttemptStep.accepted 11 .stillPending
        else .rejected "nonce too low") 5 2 1 (some 11) = ⟨.submitted 11, false, []⟩) ∧
    (submitLoop (fun _ => AttemptStep.rejected "insufficient funds for gas * price") 5
        3 0 none = ⟨.failed "Insufficient funds for transaction", false, []⟩) ∧
    (submitWithResubmission (fun i => AttemptStep.accepted (100 + i) .stillPending) 5 =
      ⟨.submitted 102, false, [102]⟩) ∧
    (submitWithResubmission (fun _ => AttemptStep.rejected "network error") 5 =
      ⟨.failed ("Failed to submit after " ++ toString MAX_RESUBMIT_ATTEMPTS ++
        " attempts"), true, []⟩) := by
  refine ⟨⟨rfl, ?_⟩, ?_, ?_, ?_⟩
  · exact ((resubmit_loop_terminal_cases _ 5).1 1 1 "nonce too low" rfl (by decide)).1 11
  · exact (resubmit_loop_terminal_cases _ 5).2.1 2 0 none
      "insufficient funds for gas * price" rfl (by decide) (by decide) (by decide)
  · exact (resubmit_loop_terminal_cases _ 5).2.2.1 100 101 102 rfl rfl rfl
  · refine (resubmit_loop_terminal_cases _ 5).2.2.2 "network error" "network error"
      "network error" rfl rfl rfl ?_
    intro m hm
    have hme : m = "network error" := by rcases hm with h | h | h <;> exact h
    subst hme
    exact ⟨by decide, by decide, by decide⟩

/-- Helper: one-step unfolding of the `D` Newton iteration. -/
lemma dIter_succ {K : Type*} [LinearOrderedField K] [DecidableEq K]
    [DecidableRel ((· < ·) : K → K → Prop)] (x y ann s : K) (fuel : ℕ) (d : K) :
    dIter x y ann s (fuel + 1) d =
      (let d_p := d * d * d / (4 * x * y)
       let d_new := (ann * s + d_p * 2) * d / ((ann - 1) * d + (2 + 1) * d_p)
       if |d_new - d| < 1 then d_new else dIter x y ann s fuel d_new) := rfl

/-- Helper: one-step unfolding of the `y` Newton iteration. -/
lemma yIter_succ {K : Type*} [LinearOrderedField K] [DecidableEq K]
    [DecidableRel ((· < ·) : K → K → Prop)] (c b d : K) (fuel : ℕ) (yv : K) :
    yIter c b d (fuel + 1) yv =
      (let y2 := (yv * yv + c) / (2 * yv + b - d)
       if |y2 - yv| < 1 then y2 else yIter c b d fuel y2) := rfl

/-- Helper: the `D` iteration stops at once when the first Newton step moves
by less than the unit tolerance. -/
lemma dIter_stop {K : Type*} [LinearOrderedField K] [DecidableEq K]
    [DecidableRel ((· < ·) : K → K → Prop)] (x y ann s : K) (fuel : ℕ) (d : K)
    (h : |(ann * s + d * d * d / (4 * x * y) * 2) * d /
        ((ann - 1) * d + (2 + 1) * (d * d * d / (4 * x * y))) - d| < 1) :
    dIter x y ann s (fuel + 1) d =
      (ann * s + d * d * d / (4 * x * y) * 2) * d /
        ((ann - 1) * d + (2 + 1) * (d * d * d / (4 * x * y))) := by
  rw [dIter_succ]
  exact if_pos h

/-- Helper: the `y` iteration stops when a Newton step moves by less than
the unit tolerance. -/
lemma yIter_stop {K : Type*} [LinearOrderedField K] [DecidableEq K]
    [DecidableRel ((· < ·) : K → K → Prop)] (c b d : K) (fuel : ℕ) (yv : K)
    (h : |(yv * yv + c) / (2 * yv + b - d) - yv| < 1) :
    yIter c b d (fuel + 1) yv = (yv * yv + c) / (2 * yv + b - d) := by
  rw [yIter_succ]
  exact if_pos h

/-- Helper: the `y` iteration keeps going while a Newton step moves by at
least the unit tolerance. -/
lemma yIter_go {K : Type*} [LinearOrderedField K] [DecidableEq K]
    [DecidableRel ((· < ·) : K → K → Prop)] (c b d : K) (fuel : ℕ) (yv : K)
    (h : ¬ |(yv * yv + c) / (2 * yv + b - d) - yv| < 1) :
    yIter c b d (fuel + 1) yv =
      yIter c b d fuel ((yv * yv + c) / (2 * yv + b - d)) := by
  rw [yIter_succ]
  exact if_neg h

/-- Helper: the invariant `D` at the counterexample point `x = y = 2`,
`A = 100`. -/
lemma stableswapD_2_2 : stableswapD (2 : ℚ) 2 400 4 = 4 := by
  unfold stableswapD
  rw [show (256 : ℕ) = 255 + 1 from rfl,
    dIter_stop (2 : ℚ) 2 400 4 255 4 (by norm_num)]
  norm_num

/-- Helper: the post-swap balance at the counterexample point: two Newton
steps land at `257362802/120681401 ≈ 2.133 > 2 = y`. -/
lemma stableswapYNew_2_2 : stableswapYNew (2 : ℚ) 2 0 100 = 257362802 / 120681401 := by
  have hD : stableswapD (2 : ℚ) 2 (100 * 2 * 2) (2 + 2) = 4 := by
    norm_num [stableswapD_2_2]
  unfold stableswapYNew
  simp only []
  rw [hD]
  norm_num
  rw [show (256 : ℕ) = 255 + 1 from rfl,
    yIter_go (1 / 50) (201 / 100) 4 255 4 (by rw [abs_sub_lt_iff]; norm_num)]
  norm_num
  rw [show (255 : ℕ) = 254 + 1 from rfl,
    yIter_stop (1 / 50) (201 / 100) 4 254 (1602 / 601)
      (by rw [abs_sub_lt_iff]; constructor <;> norm_num)]
  norm_num

/-- C9 counterexample: at `x = y = 2`, `dx = 0`, `A = 100` the evaluator
computes `y_new ≈ 2.133 > y` (the unit-scale tolerance is large at this
magnitude) and returns `dy = 0`, not the claimed `y − y_new`, which is
negative: `get_dy` clamps at zero instead of returning `y − y_new`. -/
theorem stableswap_dy_clamped_at_zero :
    stableswapGetDy (2 : ℚ) 2 0 100 = some 0 ∧
    (2 : ℚ) - stableswapYNew (2 : ℚ) 2 0 100 < 0 ∧
    stableswapGetDy (2 : ℚ) 2 0 100 ≠
      some ((2 : ℚ) - stableswapYNew (2 : ℚ) 2 0 100) := by
  have hy := stableswapYNew_2_2
  have hlt : (2 : ℚ) - stableswapYNew (2 : ℚ) 2 0 100 < 0 := by rw [hy]; norm_num
  have hdy : stableswapGetDy (2 : ℚ) 2 0 100 = some 0 := by
    unfold stableswapGetDy
    rw [if_neg (by norm_num), if_neg (by rw [hy]; norm_num)]
  refine ⟨hdy, hlt, ?_⟩
  rw [hdy]
  intro hc
  rw [Option.some_inj] at hc
  rw [← hc] at hlt
  exact absurd hlt (by norm_num)

/-- C9 (amended): for inputs with `x + y ≠ 0`, `stableswap_get_dy` computes
the invariant `D` by Newton iteration capped at 256 steps with unit-scale
tolerance, solves for `y_new` by the same schema, and returns
`dy = y − y_new` when `y_new < y` and `0` otherwise, i.e.
`max 0 (y − y_new)`. -/
theorem stableswap_get_dy_max_formula {K : Type*} [LinearOrderedField K] [DecidableEq K]
    [DecidableRel ((· < ·) : K → K → Prop)] (x y dx amp : K) (h : x + y ≠ 0) :
    stableswapGetDy x y dx amp = some (max 0 (y - stableswapYNew x y dx amp)) := by
  unfold stableswapGetDy
  rw [if_neg h]
  rcases lt_trichotomy (stableswapYNew x y dx amp) y with h' | h' | h'
  · rw [if_pos h', max_eq_right (by linarith)]
  · rw [if_neg (by rw [h']; exact lt_irrefl _), h', sub_self, max_self]
  · rw [if_neg (not_lt.mpr h'.le), max_eq_left (by linarith)]

/-- C9 witness: the formula applied at `x = y = 1`, `dx = 0`, `A = 100`. -/
theorem stableswap_get_dy_max_formula_witness :
    ((1 : ℚ) + 1 ≠ 0) ∧
    stableswapGetDy (1 : ℚ) 1 0 100 =
      some (max 0 (1 - stableswapYNew (1 : ℚ) 1 0 100)) :=
  ⟨by norm_num, stableswap_get_dy_max_formula 1 1 0 100 (by norm_num)⟩

/-- Helper: fee multipliers of fees below 100% are positive. -/
lemma feeMult_pos {f : ℕ} (h : f < 10000) : 0 < feeMult f := by
  unfold feeMult
  rw [sub_pos, div_lt_one (by norm_num)]
  exact_mod_cast h

/-- Helper: the minimum trade size is positive as a real. -/
lemma minTrade_pos : (0 : ℝ) < (MIN_TRADE_SIZE_WEI : ℝ) := by
  norm_num [MIN_TRADE_SIZE_WEI]

/-- Helper: a nonpositive closed-form denominator forces a nonpositive
numerator (both reserves entering the denominator must vanish). -/
lemma cpDen_npos_imp_num_npos {bp sp : PoolParams}
    (hb : bp.fee_bps < 10000) (hs : sp.fee_bps < 10000)
    (hd : cpDenominator bp sp ≤ 0) : cpNumerator bp sp ≤ 0 := by
  have hfb := feeMult_pos hb
  have hfs := feeMult_pos hs
  have h1 : 0 ≤ feeMult bp.fee_bps * (bp.reserve_y : ℝ) :=
    mul_nonneg hfb.le (Nat.cast_nonneg _)
  have h2 : 0 ≤ (sp.reserve_y : ℝ) / feeMult sp.fee_bps :=
    div_nonneg (Nat.cast_nonneg _) hfs.le
  have hz1 : feeMult bp.fee_bps * (bp.reserve_y : ℝ) = 0 := by
    unfold cpDenominator at hd; linarith
  have hz2 : (sp.reserve_y : ℝ) / feeMult sp.fee_bps = 0 := by
    unfold cpDenominator at hd; linarith
  have hry : (bp.reserve_y : ℝ) = 0 := by
    rcases mul_eq_zero.mp hz1 with h | h
    · exact absurd h hfb.ne'
    · exact h
  have hsy : (sp.reserve_y : ℝ) = 0 := by
    rcases div_eq_zero_iff.mp hz2 with h | h
    · exact h
    · exact absurd h hfs.ne'
  unfold cpNumerator cpSqrtTerm
  rw [hry, hsy]
  simp [Real.sqrt_zero]

/-- C2: the constant-product sizer's optimal input is exactly the claimed
closed form `x* = (√(fᵦ fₛ B₂ S₂ B₁ S₁) − B₁ S₁) / (fᵦ B₂ + S₁/fₛ)` (with
`B₁, B₂` the buy reserves and `S₁ = sell.reserve_y`, `S₂ = sell.reserve_x`),
and — for fees below 100% — the sizer returns no trade exactly when the
numerator is nonpositive, `x*` is below `MIN_TRADE_SIZE`, or the resulting
profit is nonpositive. -/
theorem constant_product_closed_form (bp sp : PoolParams)
    (hb : bp.fee_bps < 10000) (hs : sp.fee_bps < 10000) :
    cpOptimalX bp sp =
      (Real.sqrt (feeMult bp.fee_bps * feeMult sp.fee_bps * (bp.reserve_y : ℝ) *
          (sp.reserve_x : ℝ) * (bp.reserve_x : ℝ) * (sp.reserve_y : ℝ)) -
        (bp.reserve_x : ℝ) * (sp.reserve_y : ℝ)) /
      (feeMult bp.fee_bps * (bp.reserve_y : ℝ) + (sp.reserve_y : ℝ) / feeMult sp.fee_bps) ∧
    (optimalConstantProduct bp sp = none ↔
      (cpNumerator bp sp ≤ 0 ∨ cpOptimalX bp sp < (MIN_TRADE_SIZE_WEI : ℝ) ∨
        cpProfit bp sp (cpOptimalX bp sp) ≤ 0)) := by
  refine ⟨rfl, ?_⟩
  unfold optimalConstantProduct
  split_ifs with h1 h2 h3
  · simp only [true_iff]
    rcases h1 with h | h
    · exact Or.inl h
    · exact Or.inl (cpDen_npos_imp_num_npos hb hs h)
  · simp only [true_iff]
    exact Or.inr (Or.inl h2)
  · simp only [true_iff]
    exact Or.inr (Or.inr h3)
  · push_neg at h1
    have hx : realToU256 (cpOptimalX bp sp) = some ⌊cpOptimalX bp sp⌋₊ := by
      unfold realToU256
      rw [if_neg (not_lt.mpr (le_trans minTrade_pos.le (not_lt.mp h2)))]
    have hp : realToU256 (cpProfit bp sp (cpOptimalX bp sp)) =
        some ⌊cpProfit bp sp (cpOptimalX bp sp)⌋₊ := by
      unfold realToU256
      rw [if_neg (not_lt.mpr (le_of_lt (not_le.mp h3)))]
    rw [hx, hp]
    simp only [reduceCtorEq, false_iff, not_or, not_lt, not_le]
    exact ⟨h1.1, not_lt.mp h2, not_le.mp h3⟩

/-- C2 witness: spec seed case 1 — buy reserves (1000, 950), sell reserves
(500, 480), both 30 bps fees. -/
theorem constant_product_closed_form_witness :
    (⟨.uniswapV3, 1000, 950, 30, none⟩ : PoolParams).fee_bps < 10000 ∧
    (cpOptimalX ⟨.uniswapV3, 1000, 950, 30, none⟩ ⟨.balancer, 500, 480, 30, none⟩ =
      (Real.sqrt (feeMult 30 * feeMult 30 * (950 : ℝ) * (500 : ℝ) * (1000 : ℝ) * (480 : ℝ)) -
        (1000 : ℝ) * (480 : ℝ)) / (feeMult 30 * (950 : ℝ) + (480 : ℝ) / feeMult 30)) := by
  refine ⟨by norm_num, ?_⟩
  have h := (constant_product_closed_form ⟨.uniswapV3, 1000, 950, 30, none⟩
    ⟨.balancer, 500, 480, 30, none⟩ (by norm_num) (by norm_num)).1
  simpa using h

/-- Helper: every trade produced by the constant-product solver carries the
buy pool's venue as `buy_venue` and the sell pool's as `sell_venue`. -/
lemma optimalConstantProduct_venues {bp sp : PoolParams} {t : OptimalTrade}
    (h : optimalConstantProduct bp sp = some t) :
    t.buy_venue = bp.venue ∧ t.sell_venue = sp.venue := by
  unfold optimalConstantProduct at h
  split_ifs at h
  all_goals repeat' split at h
  all_goals
    first
      | exact Option.noConfusion h
      | (injection h with h2; subst h2; exact ⟨rfl, rfl⟩)

/-- Helper: venue tagging of one stable-swap Newton step. -/
lemma ssStep_venues {bp sp : PoolParams} {i : ℕ} {x : ℝ} {t : OptimalTrade}
    (h : ssStep bp sp i x = .ret (some t)) :
    t.buy_venue = bp.venue ∧ t.sell_venue = sp.venue := by
  unfold ssStep at h
  repeat'
    first
      | split at h
      | simp only [] at h
  all_goals
    first
      | exact SSOut.noConfusion h
      | (injection h with h2; exact Option.noConfusion h2)
      | (injection h with h2; injection h2 with h3; subst h3; exact ⟨rfl, rfl⟩)

/-- Helper: venue tagging of the stable-swap Newton loop. -/
lemma ssLoop_venues {bp sp : PoolParams} {fuel i : ℕ} {x : ℝ} {t : OptimalTrade}
    (h : ssLoop bp sp fuel i x = .inl (some t)) :
    t.buy_venue = bp.venue ∧ t.sell_venue = sp.venue := by
  induction fuel generalizing i x with
  | zero =>
      rw [ssLoop] at h
      exact Sum.noConfusion h
  | succ fuel ih =>
      rw [ssLoop] at h
      cases hs : ssStep bp sp i x with
      | ret r =>
          rw [hs] at h
          injection h with h2
          subst h2
          exact ssStep_venues hs
      | brk =>
          rw [hs] at h
          exact Sum.noConfusion h
      | cont x' =>
          rw [hs] at h
          exact ih h

/-- Helper: venue tagging of the stable-swap solver. -/
lemma optimalStableswap_venues {bp sp : PoolParams} {t : OptimalTrade}
    (h : optimalStableswap bp sp = some t) :
    t.buy_venue = bp.venue ∧ t.sell_venue = sp.venue := by
  unfold optimalStableswap at h
  simp only [] at h
  split at h
  · rename_i r heq
    subst h
    exact ssLoop_venues heq
  · rename_i x heq
    repeat'
      first
        | split at h
        | simp only [] at h
    all_goals
      first
        | exact Option.noConfusion h
        | (injection h with h2; subst h2; exact ⟨rfl, rfl⟩)

/-- Helper: venue tagging of the mixed golden-section solver. -/
lemma optimalMixed_venues {bp sp : PoolParams} {t : OptimalTrade}
    (h : optimalMixed bp sp = some t) :
    t.buy_venue = bp.venue ∧ t.sell_venue = sp.venue := by
  unfold optimalMixed at h
  repeat'
    first
      | split at h
      | simp only [] at h
  all_goals
    first
      | exact Option.noConfusion h
      | (injection h with h2; subst h2; exact ⟨rfl, rfl⟩)

/-- Helper: venue tagging of the pair dispatch. -/
lemma solvePair_venues {bp sp : PoolParams} {t : OptimalTrade}
    (h : solvePair bp sp = some t) :
    t.buy_venue = bp.venue ∧ t.sell_venue = sp.venue := by
  have hd : solvePair bp sp = optimalStableswap bp sp ∨
      solvePair bp sp = optimalConstantProduct bp sp ∨
      solvePair bp sp = optimalMixed bp sp := by
    unfold solvePair
    cases bp.venue <;> cases sp.venue <;> simp
  rcases hd with hd | hd | hd <;> rw [hd] at h
  · exact optimalStableswap_venues h
  · exact optimalConstantProduct_venues h
  · exact optimalMixed_venues h

/-- Invariant carried through the `find_optimal_trade` fold: any produced
trade has distinct venues. -/
def TradeInv (o : Option OptimalTrade) : Prop :=
  ∀ t, o = some t → t.buy_venue ≠ t.sell_venue

/-- Helper: `considerPair` preserves the distinct-venue invariant. -/
lemma considerPair_inv {acc : Option OptimalTrade} {bp sp : PoolParams}
    (h : TradeInv acc) : TradeInv (considerPair acc bp sp) := by
  unfold considerPair
  by_cases hv : bp.venue = sp.venue
  · rw [if_pos hv]; exact h
  · rw [if_neg hv]
    cases hsp : solvePair bp sp with
    | none => exact h
    | some t' =>
        have hvv := solvePair_venues hsp
        cases acc with
        | none =>
            show TradeInv (some t')
            intro t ht
            simp only [Option.some_inj] at ht
            subst ht
            rw [hvv.1, hvv.2]
            exact hv
        | some b =>
            show TradeInv (if b.expected_profit < t'.expected_profit then some t' else some b)
            by_cases hcmp : b.expected_profit < t'.expected_profit
            · rw [if_pos hcmp]
              intro t ht
              simp only [Option.some_inj] at ht
              subst ht
              rw [hvv.1, hvv.2]
              exact hv
            · rw [if_neg hcmp]
              exact h

/-- Helper: every trade found by `find_optimal_trade` has distinct venues. -/
lemma findOptimalTrade_inv (pools : List PoolParams) :
    TradeInv (findOptimalTrade pools) := by
  unfold findOptimalTrade
  have hgen : ∀ (l : List (PoolParams × PoolParams)) (acc : Option OptimalTrade),
      TradeInv acc → TradeInv (l.foldl (fun a pr => considerPair a pr.1 pr.2) acc) := by
    intro l
    induction l with
    | nil => intro acc h; exact h
    | cons hd tl ih => intro acc h; exact ih _ (considerPair_inv h)
  exact hgen _ none (fun t ht => absurd ht (by simp))

/-- Helper: clamping does not change the venues. -/
lemma clampStage_venues (t : OptimalTrade) (v : ℕ) :
    (clampStage t v).buy_venue = t.buy_venue ∧
    (clampStage t v).sell_venue = t.sell_venue := by
  unfold clampStage
  simp only []
  split_ifs <;> exact ⟨rfl, rfl⟩

/-- Helper: every opportunity emitted by `find_optimal_opportunity` has
distinct venues. -/
lemma findOptimalOpportunity_venues {vault now : ℕ} {tq : TokenQuotes} {o : Opportunity}
    (h : findOptimalOpportunity vault now tq = some o) :
    o.buy_venue ≠ o.sell_venue := by
  unfold findOptimalOpportunity at h
  simp only [] at h
  split_ifs at h
  cases hc : findOptimalTradeClamped vault (buildPools tq) with
  | none => rw [hc] at h; exact Option.noConfusion h
  | some t =>
      rw [hc] at h
      have htv : t.buy_venue ≠ t.sell_venue := by
        unfold findOptimalTradeClamped at hc
        cases ht : findOptimalTrade (buildPools tq) with
        | none => rw [ht] at hc; exact Option.noConfusion hc
        | some t0 =>
            rw [ht] at hc
            injection hc with h3
            subst h3
            rw [(clampStage_venues t0 vault).1, (clampStage_venues t0 vault).2]
            exact findOptimalTrade_inv (buildPools tq) t0 ht
      repeat'
        first
          | split at h
          | simp only [] at h
      all_goals
        first
          | exact Option.noConfusion h
          | (injection h with h2; subst h2; simp_all)

/-- C8: every opportunity the detector emits satisfies the spread and profit
floors and has distinct buy and sell venues, and the emitted list is sorted
by expected profit in descending order. -/
theorem detect_optimal_invariants (ms mp vault now : ℕ) (tqs : List TokenQuotes) :
    (∀ o ∈ detectOptimal ms mp vault now tqs,
      ms ≤ o.spread_bps ∧ mp ≤ o.expected_profit ∧ o.buy_venue ≠ o.sell_venue) ∧
    List.Pairwise (fun a b => b.expected_profit ≤ a.expected_profit)
      (detectOptimal ms mp vault now tqs) := by
  constructor
  · intro o ho
    unfold detectOptimal at ho
    rw [List.mem_mergeSort, List.mem_filterMap] at ho
    obtain ⟨tq, _, hfo⟩ := ho
    cases hff : findOptimalOpportunity vault now tq with
    | none => rw [hff] at hfo; exact absurd hfo (by simp [Option.filter])
    | some o' =>
        rw [hff] at hfo
        by_cases hp : (decide (ms ≤ o'.spread_bps) && decide (mp ≤ o'.expected_profit)) = true
        · rw [Option.filter, if_pos hp, Option.some_inj] at hfo
          subst hfo
          rw [Bool.and_eq_true, decide_eq_true_eq, decide_eq_true_eq] at hp
          exact ⟨hp.1, hp.2, findOptimalOpportunity_venues hff⟩
        · rw [Option.filter, if_neg hp] at hfo
          exact absurd hfo (by simp)
  · unfold detectOptimal
    have hs := @List.sorted_mergeSort Opportunity
      (fun a b : Opportunity => decide (b.expected_profit ≤ a.expected_profit))
      (fun a b c h1 h2 => by
        rw [decide_eq_true_eq] at h1 h2 ⊢
        exact le_trans h2 h1)
      (fun a b => by
        rw [Bool.or_eq_true, decide_eq_true_eq, decide_eq_true_eq]
        exact le_total _ _)
      (tqs.filterMap fun tq =>
        (findOptimalOpportunity vault now tq).filter fun o =>
          decide (ms ≤ o.spread_bps) && decide (mp ≤ o.expected_profit))
    exact hs.imp fun h => by rwa [decide_eq_true_eq] at h

/-- C8 witness: the invariants instantiated on a concrete (empty) quote
list. -/
theorem detect_optimal_invariants_witness :
    (∀ o ∈ detectOptimal 1 1 0 0 [],
      1 ≤ o.spread_bps ∧ 1 ≤ o.expected_profit ∧ o.buy_venue ≠ o.sell_venue) ∧
    List.Pairwise (fun a b => b.expected_profit ≤ a.expected_profit)
      (detectOptimal 1 1 0 0 []) :=
  detect_optimal_invariants 1 1 0 0 []

end LstArb
